import Mathlib

/-!
Shallow embedding of `monitor.py` and `store_monitor.py` from the
indiana-shirt-monitor repository.

Network fetches and the on-disk snapshot file are modelled as explicit
inputs (the parsed value a fetch would yield, `none` for a failed fetch;
an inductive state for the snapshot file), and the scripts' side effects
(notifications sent, lines printed, snapshot written) as explicit outputs.
-/

/-- Python's `needle in hay` over `List Char`: `listStartsWith hay needle`
is true when `needle` is an initial segment of `hay`. -/
def listStartsWith : List Char → List Char → Bool
  | _, [] => true
  | [], _ :: _ => false
  | h :: hs, n :: ns => h = n && listStartsWith hs ns

/-- `listHasSub hay needle` is true when `needle` occurs contiguously in `hay`
(Python's substring `in`). -/
def listHasSub (hay needle : List Char) : Bool :=
  match hay with
  | [] => listStartsWith [] needle
  | _ :: hs => listStartsWith hay needle || listHasSub hs needle

/-- The characters of a string, lowercased (Python's `str.lower()`). -/
def lowerChars (s : String) : List Char :=
  s.toList.map Char.toLower

/-- `needle.lower() in hay.lower()` — the case-insensitive substring test used
for all keyword matching in `monitor.py` (lines 57 and 90). -/
def containsLower (needle hay : String) : Bool :=
  listHasSub (lowerChars hay) (lowerChars needle)

/-- One step of Python's `str.title()`: an alphabetic character is uppercased
when the previous character was not alphabetic, lowercased otherwise. -/
def pyTitleAux : Bool → List Char → List Char
  | _, [] => []
  | prevAlpha, c :: rest =>
    if c.isAlpha then
      (if prevAlpha then c.toLower else c.toUpper) :: pyTitleAux true rest
    else
      c :: pyTitleAux false rest

/-- Python's `str.title()`, used when interpolating keywords into messages. -/
def pyTitle (s : String) : String :=
  ⟨pyTitleAux false s.toList⟩

/-- Python truthiness test `not topic` for an optional string: true for
`None` and for the empty string. -/
def topicFalsy : Option String → Bool
  | none => true
  | some t => t.isEmpty

/-- Outcome of the one `requests.post` a notifier performs: either the call
raised (timeout, connection error) or a response with a status code came
back. -/
inductive PostOutcome
  | exn
  | resp (status : Nat)

namespace Monitor

/-- A hyperlink of the fetched collection page, as exposed by the HTML
parser: `text` is the stripped visible text (`link.get_text(strip=True)`),
`href` the value of its `href` attribute. -/
structure Link where
  text : String
  href : String

/-- A variant record of the product JSON. Both fields are optional because the
code reads them with `variant.get("title", "")` and
`variant.get("available", False)`. -/
structure Variant where
  title : Option String
  available : Option Bool

/-- The `product` record of the product JSON (`monitor.py` line 84-87). -/
structure Product where
  variants : List Variant

/-- Href resolution of `monitor.py` lines 58-62: an href starting with "/"
(`href.startswith("/")`) is joined to the store origin, anything else is
returned as-is. -/
def resolveHref (href : String) : String :=
  if listStartsWith href.toList ['/'] then "https://store.dead.net" ++ href else href

/-- The link scan of `find_product_page` (lines 55-63): the first link whose
visible text contains the state keyword case-insensitively wins. -/
def findLink (state_keyword : String) : List Link → Option String
  | [] => none
  | l :: rest =>
    if containsLower state_keyword l.text then some (resolveHref l.href)
    else findLink state_keyword rest

/-- `find_product_page` (`monitor.py` lines 36-63). `collection` is the fetch
result of the collection page: `none` models a fetch failure (lines 46-51),
`some links` the parsed hyperlinks. -/
def find_product_page (collection : Option (List Link)) (state_keyword : String) :
    Option String :=
  match collection with
  | none => none
  | some links => findLink state_keyword links

/-- The variant loop of `check_variant_available` (lines 88-92): the first
variant whose title contains the size keyword determines the result, a
missing `available` field defaulting to `false`. -/
def findVariant (size_keyword : String) : List Variant → Option Bool
  | [] => none
  | v :: rest =>
    if containsLower size_keyword (v.title.getD "") then
      some (v.available.getD false)
    else findVariant size_keyword rest

/-- `check_variant_available` (`monitor.py` lines 66-92). `fetched` is the
product-JSON fetch result for the page: `none` models a fetch or parse
failure (lines 77-83), `some none` a response whose `product` field is
missing or falsy (lines 84-86), `some (some p)` a product record. -/
def check_variant_available (fetched : Option (Option Product)) (size_keyword : String) :
    Option Bool :=
  match fetched with
  | none => none
  | some none => none
  | some (some product) => findVariant size_keyword product.variants

/-- "page missing" message of `monitor.py` line 114. -/
def pageMissingMsg (state_keyword : String) : String :=
  pyTitle state_keyword ++ " shirt page is not yet available."

/-- "variant missing" message of `monitor.py` line 119. -/
def variantMissingMsg (state_keyword size_keyword : String) : String :=
  pyTitle state_keyword ++ " product found, but the " ++ pyTitle size_keyword ++
    " variant is missing."

/-- "available" message of `monitor.py` line 121. -/
def availableMsg (state_keyword size_keyword product_url : String) : String :=
  pyTitle state_keyword ++ " " ++ pyTitle size_keyword ++ " is available! " ++ product_url

/-- "sold out" message of `monitor.py` line 123. -/
def soldOutMsg (state_keyword size_keyword product_url : String) : String :=
  pyTitle state_keyword ++ " " ++ pyTitle size_keyword ++ " is currently sold out. " ++
    product_url

/-- Observable effects of one `send_notification` call in `monitor.py`
(lines 95-104): lines printed to stdout and stderr, and the `(topic, body)`
POST requests attempted. The Python function returns `None` on every path. -/
structure SendEffect where
  stdout : List String
  stderr : List String
  posted : List (String × String)

/-- `send_notification` of `monitor.py` (lines 95-104). With a falsy topic the
message is printed to stdout. Otherwise one POST is attempted; only a raised
exception is logged — the response status is never inspected (no
`raise_for_status`), so a non-2xx response produces no log line. -/
def send_notification (topic : Option String) (message : String)
    (outcome : PostOutcome) : SendEffect :=
  if topicFalsy topic then
    { stdout := [message], stderr := [], posted := [] }
  else
    match outcome with
    | .exn =>
        { stdout := [], stderr := ["Error sending notification: exception"],
          posted := [(topic.getD "", message)] }
    | .resp _ =>
        { stdout := [], stderr := [], posted := [(topic.getD "", message)] }

/-- `main` of `monitor.py` (lines 107-123), returning the single notification
message it emits. `fp` maps a resolved product URL to the product-JSON fetch
result for that page. Python's `if not product_url` also treats an empty
string as a missing page. -/
def main (collection : Option (List Link)) (fp : String → Option (Option Product))
    (state_keyword size_keyword : String) : String :=
  match find_product_page collection state_keyword with
  | none => pageMissingMsg state_keyword
  | some product_url =>
    if product_url.isEmpty then pageMissingMsg state_keyword
    else
      match check_variant_available (fp product_url) size_keyword with
      | none => variantMissingMsg state_keyword size_keyword
      | some true => availableMsg state_keyword size_keyword product_url
      | some false => soldOutMsg state_keyword size_keyword product_url

end Monitor

namespace StoreMonitor

/-- State of the snapshot file `.store_monitor_cache.json` before a run:
absent, present but unreadable or holding malformed JSON, or holding a JSON
array of strings. -/
inductive CacheFile
  | absent
  | malformed
  | content (titles : List String)
deriving DecidableEq

/-- The snapshot read of `store_monitor.py` lines 65-71: a missing file or any
read/decode exception yields the empty list. -/
def readCache : CacheFile → List String
  | .absent => []
  | .malformed => []
  | .content titles => titles

/-- Line 73: `[t for t in product_titles if t not in last_seen]`. -/
def new_titles (last_seen product_titles : List String) : List String :=
  product_titles.filter (fun t => !(last_seen.contains t))

/-- Observable outcome of one novelty-detector run: the notification messages
sent, in order, and the snapshot file state after the run. -/
structure RunResult where
  notifications : List String
  cache : CacheFile
deriving DecidableEq

/-- `main` of `store_monitor.py` (lines 59-82). `product_titles` is the result
of `fetch_product_titles` (empty on fetch failure). An empty listing returns
at once (lines 62-63); otherwise the new titles are notified and, when there
are any, the snapshot is rewritten with the first 50 current titles
(lines 73-80). -/
def main (cache : CacheFile) (product_titles : List String) : RunResult :=
  if product_titles.isEmpty then
    { notifications := [], cache := cache }
  else
    let last_seen := readCache cache
    let nts := new_titles last_seen product_titles
    if nts.isEmpty then
      { notifications := [], cache := cache }
    else
      { notifications := nts.map (fun title => "New product added: " ++ title),
        cache := CacheFile.content (product_titles.take 50) }

/-- Observable effects of one `send_notification` call in `store_monitor.py`
(lines 43-57), together with its boolean return value. -/
structure SendEffect where
  stdout : List String
  stderr : List String
  posted : List (String × String)
  result : Bool

/-- `send_notification` of `store_monitor.py` (lines 43-57). With a falsy
topic a skip notice goes to stderr and `False` is returned — nothing is
printed to stdout. Otherwise one POST is attempted; `raise_for_status` turns
a 4xx/5xx status into a logged failure, and any exception is logged; both
return `False`. A response below 400 returns `True`. -/
def send_notification (topic : Option String) (message : String)
    (outcome : PostOutcome) : SendEffect :=
  if topicFalsy topic then
    { stdout := [], stderr := ["NTFY_STORE_TOPIC is not set. Skipping notification."],
      posted := [], result := false }
  else
    match outcome with
    | .exn =>
        { stdout := [], stderr := ["Error sending notification: exception"],
          posted := [(topic.getD "", message)], result := false }
    | .resp status =>
        if 400 ≤ status ∧ status < 600 then
          { stdout := [], stderr := ["Error sending notification: exception"],
            posted := [(topic.getD "", message)], result := false }
        else
          { stdout := [], stderr := [], posted := [(topic.getD "", message)],
            result := true }

end StoreMonitor

/-- A product-JSON fetch that always fails (concrete world for witnesses). -/
def noProductFetch : String → Option (Option Monitor.Product) :=
  fun _ => none

/-- A product-JSON fetch whose product has one "Large" variant that lacks the
`available` field (concrete world for witnesses). -/
def variantNoAvailFetch : String → Option (Option Monitor.Product) :=
  fun _ => some (some { variants := [{ title := some "Large", available := none }] })

/-- Sanity check: keyword matching is case-insensitive substring matching. -/
theorem containsLower_sample : containsLower "Large" "Unisex / LARGE" = true := by decide

/-- Sanity check: the worked example of the specification, §8. -/
theorem spec_example_run :
    StoreMonitor.main (StoreMonitor.CacheFile.content ["Ohio Tee"])
      ["Indiana Tee", "Ohio Tee"] =
    { notifications := ["New product added: Indiana Tee"],
      cache := StoreMonitor.CacheFile.content ["Indiana Tee", "Ohio Tee"] } := by decide

/-- The code's `t not in last_seen` test agrees with propositional
non-membership, so `new_titles` is the membership filter. -/
theorem new_titles_eq_filter_not_mem (last_seen current : List String) :
    StoreMonitor.new_titles last_seen current
      = current.filter (fun t => decide (t ∉ last_seen)) := by
  unfold StoreMonitor.new_titles
  apply List.filter_congr
  intro t _
  by_cases h : t ∈ last_seen <;> simp [h]

/-- Filtering a list by non-membership in itself leaves nothing. -/
theorem new_titles_self (l : List String) : StoreMonitor.new_titles l l = [] := by
  rw [new_titles_eq_filter_not_mem]
  rw [List.filter_eq_nil_iff]
  intro a ha
  simp [ha]

/-- `StoreMonitor.main`, re-expressed as a single case split on whether any
new titles were found (the early return for an empty listing coincides with
the no-new-titles branch, since no title of an empty listing is new). -/
theorem storeMain_eq (cache : StoreMonitor.CacheFile) (current : List String) :
    StoreMonitor.main cache current =
      if (StoreMonitor.new_titles (StoreMonitor.readCache cache) current).isEmpty then
        { notifications := [], cache := cache }
      else
        { notifications :=
            (StoreMonitor.new_titles (StoreMonitor.readCache cache) current).map
              (fun title => "New product added: " ++ title),
          cache := StoreMonitor.CacheFile.content (current.take 50) } := by
  unfold StoreMonitor.main
  cases h1 : current.isEmpty
  · simp only [h1]
    rfl
  · have hc : current = [] := by
      cases current with
      | nil => rfl
      | cons a l => simp [List.isEmpty] at h1
    subst hc
    simp [StoreMonitor.new_titles]

/-- C1: the novelty detector's notification list is the order-preserving
membership filter of `current` against `previous`, mapped through the
"New product added: " template; duplicates survive, so a title absent from
`previous` occurs in the new list exactly as often as in `current`. -/
theorem c1_novelty_filter_notifications (previous current : List String)
    (t : String) (ht : t ∉ previous) :
    (StoreMonitor.main (StoreMonitor.CacheFile.content previous) current).notifications
      = (current.filter (fun s => decide (s ∉ previous))).map
          (fun title => "New product added: " ++ title)
    ∧ (current.filter (fun s => decide (s ∉ previous))).count t = current.count t := by
  constructor
  · rw [storeMain_eq, ← new_titles_eq_filter_not_mem]
    have hrc : StoreMonitor.readCache (StoreMonitor.CacheFile.content previous)
        = previous := rfl
    rw [hrc]
    cases h : (StoreMonitor.new_titles previous current).isEmpty
    · simp [h]
    · rw [List.isEmpty_iff] at h
      simp [h]
  · rw [List.count_filter]
    simp [ht]

/-- Witness for C1 at the specification's §8 example. -/
theorem c1_witness :
    (StoreMonitor.main (StoreMonitor.CacheFile.content ["Ohio Tee"])
        ["Indiana Tee", "Ohio Tee"]).notifications
      = (["Indiana Tee", "Ohio Tee"].filter
          (fun s => decide (s ∉ ["Ohio Tee"]))).map
          (fun title => "New product added: " ++ title)
    ∧ (["Indiana Tee", "Ohio Tee"].filter
          (fun s => decide (s ∉ ["Ohio Tee"]))).count "Indiana Tee"
        = ["Indiana Tee", "Ohio Tee"].count "Indiana Tee" :=
  c1_novelty_filter_notifications ["Ohio Tee"] ["Indiana Tee", "Ohio Tee"]
    "Indiana Tee" (by decide)

/-- C2: whenever new titles are found, the snapshot is overwritten wholesale
with the first 50 current titles, whose length is at most 50. -/
theorem c2_snapshot_truncation (cache : StoreMonitor.CacheFile) (current : List String)
    (h : StoreMonitor.new_titles (StoreMonitor.readCache cache) current ≠ []) :
    (StoreMonitor.main cache current).cache
        = StoreMonitor.CacheFile.content (current.take 50)
    ∧ (current.take 50).length ≤ 50 := by
  have h2 : (StoreMonitor.new_titles (StoreMonitor.readCache cache) current).isEmpty
      = false := by
    cases hn : StoreMonitor.new_titles (StoreMonitor.readCache cache) current with
    | nil => exact absurd hn h
    | cons a l => rfl
  rw [storeMain_eq]
  refine ⟨by simp [h2], ?_⟩
  rw [List.length_take]
  omega

/-- Witness for C2: 60 fresh titles against an empty snapshot. -/
theorem c2_witness :
    (StoreMonitor.main StoreMonitor.CacheFile.absent
        ((List.range 60).map (fun n => toString n))).cache
        = StoreMonitor.CacheFile.content
            (((List.range 60).map (fun n => toString n)).take 50)
    ∧ (((List.range 60).map (fun n => toString n)).take 50).length ≤ 50 :=
  c2_snapshot_truncation StoreMonitor.CacheFile.absent
    ((List.range 60).map (fun n => toString n)) (by decide)

/-- C3: when no new titles are found or the fetched listing is empty, the
snapshot keeps exactly the state that was read and no notification is sent. -/
theorem c3_snapshot_frame (cache : StoreMonitor.CacheFile) (current : List String)
    (h : StoreMonitor.new_titles (StoreMonitor.readCache cache) current = []
        ∨ current = []) :
    (StoreMonitor.main cache current).cache = cache
    ∧ (StoreMonitor.main cache current).notifications = [] := by
  have hnil : StoreMonitor.new_titles (StoreMonitor.readCache cache) current = [] := by
    rcases h with h | h
    · exact h
    · subst h; rfl
  rw [storeMain_eq, hnil]
  exact ⟨rfl, rfl⟩

/-- Witness for C3: an unchanged listing writes nothing and notifies nothing. -/
theorem c3_witness :
    (StoreMonitor.main (StoreMonitor.CacheFile.content ["Ohio Tee"]) ["Ohio Tee"]).cache
        = StoreMonitor.CacheFile.content ["Ohio Tee"]
    ∧ (StoreMonitor.main (StoreMonitor.CacheFile.content ["Ohio Tee"])
        ["Ohio Tee"]).notifications = [] :=
  c3_snapshot_frame (StoreMonitor.CacheFile.content ["Ohio Tee"]) ["Ohio Tee"]
    (Or.inl (by decide))

/-- C5: with an unchanged listing of at most 50 titles, a second run starting
from the snapshot the first run left behind sends no notification. -/
theorem c5_idempotence (cache : StoreMonitor.CacheFile) (current : List String)
    (h : current.length ≤ 50) :
    (StoreMonitor.main (StoreMonitor.main cache current).cache current).notifications
      = [] := by
  have htake : current.take 50 = current := List.take_of_length_le h
  cases hn : (StoreMonitor.new_titles (StoreMonitor.readCache cache) current).isEmpty
  · have hcache : (StoreMonitor.main cache current).cache
        = StoreMonitor.CacheFile.content (current.take 50) := by
      rw [storeMain_eq, hn]
      rfl
    rw [hcache, htake, storeMain_eq]
    have hself : StoreMonitor.new_titles
        (StoreMonitor.readCache (StoreMonitor.CacheFile.content current)) current
        = [] := new_titles_self current
    rw [hself]
    rfl
  · have hcache : (StoreMonitor.main cache current).cache = cache := by
      rw [storeMain_eq, hn]
      rfl
    rw [hcache, storeMain_eq, hn]
    rfl

/-- Witness for C5 at the specification's §8 example. -/
theorem c5_witness :
    (StoreMonitor.main
        (StoreMonitor.main (StoreMonitor.CacheFile.content ["Ohio Tee"])
            ["Indiana Tee", "Ohio Tee"]).cache
        ["Indiana Tee", "Ohio Tee"]).notifications = [] :=
  c5_idempotence (StoreMonitor.CacheFile.content ["Ohio Tee"])
    ["Indiana Tee", "Ohio Tee"] (by decide)

/-- C6: when the snapshot read fails (file absent, or unreadable/malformed),
the previous list is taken to be empty and every current title is notified
as new, in order. -/
theorem c6_read_failure_recovery (cache : StoreMonitor.CacheFile) (current : List String)
    (h : cache = StoreMonitor.CacheFile.absent
        ∨ cache = StoreMonitor.CacheFile.malformed) :
    (StoreMonitor.main cache current).notifications
      = current.map (fun title => "New product added: " ++ title) := by
  have hr : StoreMonitor.readCache cache = [] := by
    rcases h with h | h <;> subst h <;> rfl
  have hnts : StoreMonitor.new_titles (StoreMonitor.readCache cache) current
      = current := by
    rw [hr]
    unfold StoreMonitor.new_titles
    simp
  rw [storeMain_eq, hnts]
  cases current with
  | nil => rfl
  | cons a l => rfl

/-- Witness for C6: a corrupted snapshot makes every title new. -/
theorem c6_witness :
    (StoreMonitor.main StoreMonitor.CacheFile.malformed
        ["Indiana Tee", "Ohio Tee"]).notifications
      = ["Indiana Tee", "Ohio Tee"].map (fun title => "New product added: " ++ title) :=
  c6_read_failure_recovery StoreMonitor.CacheFile.malformed ["Indiana Tee", "Ohio Tee"]
    (Or.inr rfl)

/-- If no variant title matches the size keyword, the variant loop yields
`none`. -/
theorem findVariant_eq_none (size_keyword : String) (vs : List Monitor.Variant)
    (h : ∀ v ∈ vs, containsLower size_keyword (v.title.getD "") = false) :
    Monitor.findVariant size_keyword vs = none := by
  induction vs with
  | nil => rfl
  | cons v rest ih =>
    have hv := h v (by simp)
    have hrest := ih (fun w hw => h w (by simp [hw]))
    simp [Monitor.findVariant, hv, hrest]

/-- The variant loop returns the availability of the first matching variant,
defaulting a missing `available` field to `false`. -/
theorem findVariant_append (size_keyword : String) (pre : List Monitor.Variant)
    (v : Monitor.Variant) (post : List Monitor.Variant)
    (hpre : ∀ w ∈ pre, containsLower size_keyword (w.title.getD "") = false)
    (hv : containsLower size_keyword (v.title.getD "") = true) :
    Monitor.findVariant size_keyword (pre ++ v :: post)
      = some (v.available.getD false) := by
  induction pre with
  | nil => simp [Monitor.findVariant, hv]
  | cons w rest ih =>
    have hw := hpre w (by simp)
    have hrest := ih (fun u hu => hpre u (by simp [hu]))
    simp [Monitor.findVariant, hw, hrest]

/-- The link scan is `List.find?` on the case-insensitive text match, with the
winning link's href resolved against the store origin. -/
theorem findLink_eq_findFirst (state_keyword : String) (links : List Monitor.Link) :
    Monitor.findLink state_keyword links
      = (links.find? (fun l => containsLower state_keyword l.text)).map
          (fun l => Monitor.resolveHref l.href) := by
  induction links with
  | nil => rfl
  | cons l rest ih =>
    cases h : containsLower state_keyword l.text
    · simp [Monitor.findLink, List.find?_cons, h, ih]
    · simp [Monitor.findLink, List.find?_cons, h]

/-- C8: page resolution picks the first hyperlink whose visible text contains
the state keyword case-insensitively and resolves its href against the store
origin; when no link text matches, the checker emits exactly the "page
missing" message. -/
theorem c8_page_resolution (links : List Monitor.Link)
    (fp : String → Option (Option Monitor.Product))
    (state_keyword size_keyword : String) :
    Monitor.find_product_page (some links) state_keyword
      = (links.find? (fun l => containsLower state_keyword l.text)).map
          (fun l => Monitor.resolveHref l.href)
    ∧ ((∀ l ∈ links, containsLower state_keyword l.text = false) →
        Monitor.main (some links) fp state_keyword size_keyword
          = Monitor.pageMissingMsg state_keyword) := by
  constructor
  · exact findLink_eq_findFirst state_keyword links
  · intro h
    have hnone : Monitor.find_product_page (some links) state_keyword = none := by
      show Monitor.findLink state_keyword links = none
      rw [findLink_eq_findFirst]
      have hfind : links.find? (fun l => containsLower state_keyword l.text) = none :=
        List.find?_eq_none.mpr (fun x hx => by simp [h x hx])
      rw [hfind]
      rfl
    unfold Monitor.main
    rw [hnone]

/-- Witness for C8: a collection whose only link does not match. -/
theorem c8_witness :
    Monitor.find_product_page (some [{ text := "Ohio Tee", href := "/products/ohio-tee" }])
        "indiana"
      = ([({ text := "Ohio Tee", href := "/products/ohio-tee" } : Monitor.Link)].find?
          (fun l => containsLower "indiana" l.text)).map
          (fun l => Monitor.resolveHref l.href)
    ∧ Monitor.main (some [{ text := "Ohio Tee", href := "/products/ohio-tee" }])
        noProductFetch "indiana" "large"
      = Monitor.pageMissingMsg "indiana" := by
  have h := c8_page_resolution [{ text := "Ohio Tee", href := "/products/ohio-tee" }]
    noProductFetch "indiana" "large"
  exact ⟨h.1, h.2 (by decide)⟩

/-- C7: for a resolved page, a failed product-JSON fetch, a missing `product`
record, and the absence of any variant matching the size keyword all produce
exactly the "variant missing" message. -/
theorem c7_variant_missing_collapse (collection : Option (List Monitor.Link))
    (fp : String → Option (Option Monitor.Product))
    (state_keyword size_keyword url : String)
    (hurl : Monitor.find_product_page collection state_keyword = some url)
    (hne : url.isEmpty = false)
    (hcase : fp url = none ∨ fp url = some none ∨
        ∃ p, fp url = some (some p) ∧
          ∀ v ∈ p.variants, containsLower size_keyword (v.title.getD "") = false) :
    Monitor.main collection fp state_keyword size_keyword
      = Monitor.variantMissingMsg state_keyword size_keyword := by
  have hcv : Monitor.check_variant_available (fp url) size_keyword = none := by
    rcases hcase with h | h | ⟨p, hp, hv⟩
    · rw [h]
      rfl
    · rw [h]
      rfl
    · rw [hp]
      exact findVariant_eq_none size_keyword p.variants hv
  unfold Monitor.main
  rw [hurl]
  simp [hne, hcv]

/-- Witness for C7: the page resolves but the product-JSON fetch fails. -/
theorem c7_witness :
    Monitor.main (some [{ text := "Indiana Tee", href := "/products/indiana-tee" }])
        noProductFetch "indiana" "large"
      = Monitor.variantMissingMsg "indiana" "large" :=
  c7_variant_missing_collapse
    (some [{ text := "Indiana Tee", href := "/products/indiana-tee" }])
    noProductFetch "indiana" "large" "https://store.dead.net/products/indiana-tee"
    (by decide) (by decide) (Or.inl rfl)

/-- C10: when the first size-matching variant has no `available` field, the
checker reports sold-out with the URL (the lookup defaults to `false`), not
variant-missing. -/
theorem c10_missing_available_is_sold_out (collection : Option (List Monitor.Link))
    (fp : String → Option (Option Monitor.Product))
    (state_keyword size_keyword url : String) (p : Monitor.Product)
    (pre : List Monitor.Variant) (v : Monitor.Variant) (post : List Monitor.Variant)
    (hurl : Monitor.find_product_page collection state_keyword = some url)
    (hne : url.isEmpty = false)
    (hp : fp url = some (some p))
    (hvars : p.variants = pre ++ v :: post)
    (hpre : ∀ w ∈ pre, containsLower size_keyword (w.title.getD "") = false)
    (hv : containsLower size_keyword (v.title.getD "") = true)
    (hav : v.available = none) :
    Monitor.main collection fp state_keyword size_keyword
      = Monitor.soldOutMsg state_keyword size_keyword url := by
  have hcv : Monitor.check_variant_available (fp url) size_keyword = some false := by
    rw [hp]
    show Monitor.findVariant size_keyword p.variants = some false
    rw [hvars, findVariant_append size_keyword pre v post hpre hv, hav]
    rfl
  unfold Monitor.main
  rw [hurl]
  simp [hne, hcv]

/-- Witness for C10: one matching variant without an `available` field. -/
theorem c10_witness :
    Monitor.main (some [{ text := "Indiana Tee", href := "/products/indiana-tee" }])
        variantNoAvailFetch "indiana" "large"
      = Monitor.soldOutMsg "indiana" "large"
          "https://store.dead.net/products/indiana-tee" :=
  c10_missing_available_is_sold_out
    (some [{ text := "Indiana Tee", href := "/products/indiana-tee" }])
    variantNoAvailFetch "indiana" "large" "https://store.dead.net/products/indiana-tee"
    { variants := [{ title := some "Large", available := none }] }
    [] { title := some "Large", available := none } []
    (by decide) (by decide) rfl rfl (by decide) (by decide) rfl

/-- C4 counterexample: in `store_monitor.py`, a notification attempt with no
configured channel does NOT write the message to stdout and does NOT return a
success signal — it prints a skip notice to stderr and returns `False`. -/
theorem c4_counterexample :
    ¬ ((StoreMonitor.send_notification none "hello" PostOutcome.exn).result = true
       ∧ "hello" ∈ (StoreMonitor.send_notification none "hello" PostOutcome.exn).stdout) := by
  decide

/-- C4 amended: with no channel identifier (absent or empty), no request is
attempted in either script; `monitor.py` prints the message itself to stdout
and completes without error, while `store_monitor.py` prints a skip notice to
stderr and returns `False`. -/
theorem c4_no_channel_behavior (topic : Option String) (message : String)
    (outcome : PostOutcome) (h : topicFalsy topic = true) :
    (Monitor.send_notification topic message outcome).stdout = [message]
    ∧ (Monitor.send_notification topic message outcome).posted = []
    ∧ (Monitor.send_notification topic message outcome).stderr = []
    ∧ (StoreMonitor.send_notification topic message outcome).result = false
    ∧ (StoreMonitor.send_notification topic message outcome).stdout = []
    ∧ (StoreMonitor.send_notification topic message outcome).stderr
        = ["NTFY_STORE_TOPIC is not set. Skipping notification."]
    ∧ (StoreMonitor.send_notification topic message outcome).posted = [] := by
  unfold Monitor.send_notification StoreMonitor.send_notification
  simp [h]

/-- Witness for the amended C4 at an absent topic. -/
theorem c4_witness :
    (Monitor.send_notification none "hello" PostOutcome.exn).stdout = ["hello"]
    ∧ (Monitor.send_notification none "hello" PostOutcome.exn).posted = []
    ∧ (Monitor.send_notification none "hello" PostOutcome.exn).stderr = []
    ∧ (StoreMonitor.send_notification none "hello" PostOutcome.exn).result = false
    ∧ (StoreMonitor.send_notification none "hello" PostOutcome.exn).stdout = []
    ∧ (StoreMonitor.send_notification none "hello" PostOutcome.exn).stderr
        = ["NTFY_STORE_TOPIC is not set. Skipping notification."]
    ∧ (StoreMonitor.send_notification none "hello" PostOutcome.exn).posted = [] :=
  c4_no_channel_behavior none "hello" PostOutcome.exn rfl

/-- C9 counterexample: in `monitor.py`, a delivery that comes back with a
non-2xx status (here 500) is attempted but nothing is logged to stderr —
the response status is never inspected. -/
theorem c9_counterexample :
    (Monitor.send_notification (some "alerts") "msg" (PostOutcome.resp 500)).posted
        = [("alerts", "msg")]
    ∧ (Monitor.send_notification (some "alerts") "msg" (PostOutcome.resp 500)).stderr
        = [] := by
  decide

/-- C9 amended: with a configured channel, a raised transmission error is
logged to stderr by both scripts, and an HTTP error status (400–599) is
logged by `store_monitor.py` (which returns `False`); `monitor.py` ignores
the response status entirely, logging nothing for it. In every case exactly
one delivery is attempted (no retry) and the call returns normally. -/
theorem c9_transmission_failure (topic : Option String) (message : String)
    (status : Nat) (h : topicFalsy topic = false)
    (h4 : 400 ≤ status) (h6 : status < 600) :
    (Monitor.send_notification topic message PostOutcome.exn).stderr ≠ []
    ∧ (Monitor.send_notification topic message PostOutcome.exn).posted.length = 1
    ∧ (StoreMonitor.send_notification topic message PostOutcome.exn).stderr ≠ []
    ∧ (StoreMonitor.send_notification topic message PostOutcome.exn).result = false
    ∧ (StoreMonitor.send_notification topic message PostOutcome.exn).posted.length = 1
    ∧ (StoreMonitor.send_notification topic message (PostOutcome.resp status)).stderr ≠ []
    ∧ (StoreMonitor.send_notification topic message (PostOutcome.resp status)).result
        = false
    ∧ (StoreMonitor.send_notification topic message
        (PostOutcome.resp status)).posted.length = 1
    ∧ (Monitor.send_notification topic message (PostOutcome.resp status)).stderr = []
    ∧ (Monitor.send_notification topic message
        (PostOutcome.resp status)).posted.length = 1 := by
  unfold Monitor.send_notification StoreMonitor.send_notification
  simp [h, h4, h6]

/-- Witness for the amended C9 at a configured topic and status 503. -/
theorem c9_witness :
    (StoreMonitor.send_notification (some "alerts") "boom"
        (PostOutcome.resp 503)).stderr ≠ []
    ∧ (Monitor.send_notification (some "alerts") "boom"
        (PostOutcome.resp 503)).stderr = [] := by
  have h := c9_transmission_failure (some "alerts") "boom" 503 (by decide) (by decide)
    (by decide)
  exact ⟨h.2.2.2.2.2.1, h.2.2.2.2.2.2.2.2.1⟩
